import Mathlib

/-!
Shallow embedding of the unloom capture/compose/encode pipeline
(src/js/recorder.js and src/js/compositor.js).

Modelling conventions:
* JS numbers that hold pixel dimensions, stream identifiers or timestamps are
  modelled as natural numbers; fractional layout arithmetic is modelled with
  exact rationals.
* Nullable module-level references are modelled as Option fields of explicit
  state records, and each exported function becomes a pure state transformer.
* Asynchronous platform calls (getDisplayMedia, getUserMedia, AudioContext
  and MediaRecorder construction) are modelled by an environment record that
  fixes the outcome of every such call; a rejected promise or a thrown
  exception is an "Except.error code" outcome.
* Side effects on platform objects (acquiring a source, stopping a track,
  cancelling the render loop, ...) are recorded in an effect trace so that
  acquisition/release claims can be stated about one invocation.
-/

/-! ## Compositor (src/js/compositor.js) -/

/-- Module state of compositor.js: the shared canvas with its dimensions, the
render-loop handle from requestAnimationFrame, the two off-screen video
elements (identified by the stream id bound to srcObject) and the produced
output stream reference. -/
structure CompositorState where
  canvasW : Nat
  canvasH : Nat
  animationId : Option Nat
  displayVideo : Option Nat
  cameraVideo : Option Nat
  outputStream : Option Nat
deriving DecidableEq, Repr

/-- compositor.js init(): a freshly created canvas has the HTML default size
300x150 and no loop, no bound videos, no output stream. -/
def compositorInit : CompositorState :=
  { canvasW := 300, canvasH := 150, animationId := none,
    displayVideo := none, cameraVideo := none, outputStream := none }

/-- compositor.js lines 43-44: canvas.width = displayVideo.videoWidth || 1920;
canvas.height = displayVideo.videoHeight || 1080.  The JS "||" takes the
fallback exactly when the reported dimension is 0 (falsy), independently for
each axis. -/
def canvasDims (vidW vidH : Nat) : Nat × Nat :=
  (if vidW = 0 then 1920 else vidW, if vidH = 0 then 1080 else vidH)

/-- compositor.js startCompositing: binds the display stream (and the camera
stream when given) to fresh video elements, then on loadedmetadata sizes the
canvas from the display video dimensions, starts the render loop and captures
the canvas as the output stream (id outId). -/
def startCompositing (s : CompositorState) (displaySid : Nat)
    (cameraSid : Option Nat) (vidW vidH : Nat) (outId : Nat) :
    CompositorState :=
  let s1 := { s with displayVideo := some displaySid }
  let s2 :=
    match cameraSid with
    | some c => { s1 with cameraVideo := some c }
    | none => s1
  { s2 with
    canvasW := (canvasDims vidW vidH).1
    canvasH := (canvasDims vidW vidH).2
    animationId := some 1
    outputStream := some outId }

/-- compositor.js stopCompositing (lines 133-150): cancels the render loop,
detaches both video elements and clears the output stream reference. -/
def stopCompositing (s : CompositorState) : CompositorState :=
  { s with animationId := none, displayVideo := none,
           cameraVideo := none, outputStream := none }

/-- compositor.js CAMERA_MARGIN constant. -/
def cameraMargin : ℤ := 20

/-- compositor.js CAMERA_SIZE_RATIO constant (0.2, modelled exactly). -/
def cameraSizeRatio : ℚ := 1 / 5

/-- JS Math.round for the non-negative values arising here:
round half towards positive infinity, i.e. the floor of x + 1/2. -/
def jsRound (x : ℚ) : ℤ := Int.floor (x + 1 / 2)

/-- The overlay rectangle computed by drawCameraOverlay
(compositor.js lines 73-97): width = Math.round(canvas.width * sizeRatio),
height = Math.round(cameraWidth * (videoHeight / videoWidth)), position from
the switch on the position string, with the default case behaving like
bottom-left. -/
structure OverlayRect where
  x : ℤ
  y : ℤ
  w : ℤ
  h : ℤ
deriving DecidableEq, Repr

/-- Geometry portion of drawCameraOverlay (compositor.js lines 73-97). -/
def cameraOverlayRect (canvasW canvasH : Nat) (camW camH : Nat)
    (position : String) (sizeRatio : ℚ) : OverlayRect :=
  let cameraWidth : ℤ := jsRound ((canvasW : ℚ) * sizeRatio)
  let cameraHeight : ℤ := jsRound ((cameraWidth : ℚ) * ((camH : ℚ) / (camW : ℚ)))
  if position = "top-left" then
    ⟨cameraMargin, cameraMargin, cameraWidth, cameraHeight⟩
  else if position = "top-right" then
    ⟨(canvasW : ℤ) - cameraWidth - cameraMargin, cameraMargin,
     cameraWidth, cameraHeight⟩
  else if position = "bottom-right" then
    ⟨(canvasW : ℤ) - cameraWidth - cameraMargin,
     (canvasH : ℤ) - cameraHeight - cameraMargin, cameraWidth, cameraHeight⟩
  else
    ⟨cameraMargin, (canvasH : ℤ) - cameraHeight - cameraMargin,
     cameraWidth, cameraHeight⟩

/-! ## MIME type probing (recorder.js getSupportedMimeType, lines 21-37) -/

/-- The fixed preference list of container/codec strings. -/
def mimeTypeList : List String :=
  ["video/webm;codecs=vp9,opus",
   "video/webm;codecs=vp9",
   "video/webm;codecs=vp8,opus",
   "video/webm;codecs=vp8",
   "video/webm"]

/-- The for-loop of getSupportedMimeType: return the first type the platform
reports supported, else the bare container string. -/
def supportedScan (supported : String → Bool) : List String → String
  | [] => "video/webm"
  | t :: rest => if supported t then t else supportedScan supported rest

/-- recorder.js getSupportedMimeType, with MediaRecorder.isTypeSupported
abstracted as the platform predicate. -/
def getSupportedMimeType (supported : String → Bool) : String :=
  supportedScan supported mimeTypeList

/-! ## Device enumeration (recorder.js getDevices, lines 40-68) -/

/-- Platform-visible side effects of getDevices. -/
inductive DeviceEffect
  | getUserMedia (audio : Bool) (video : Bool)
  | stopTrack (id : Nat)
  | enumerateDevices
deriving DecidableEq, Repr

/-- One entry returned by navigator.mediaDevices.enumerateDevices(). -/
structure MediaDeviceInfo where
  kind : String
  deviceId : String
  label : String
deriving DecidableEq, Repr

/-- A device entry as returned to the caller of getDevices. -/
structure DeviceEntry where
  deviceId : String
  label : String
deriving DecidableEq, Repr

/-- The map step of getDevices: keep the platform label, or synthesize
kind + truncated identifier when the platform withholds it (falsy label). -/
def deviceEntry (kindLabel : String) (d : MediaDeviceInfo) : DeviceEntry :=
  ⟨d.deviceId,
   if d.label = "" then kindLabel ++ " " ++ d.deviceId.take 8 else d.label⟩

/-- recorder.js getDevices: first request a combined audio+video user-media
stream (gum is some trackIds on success, none when the promise rejects; the
rejection is swallowed by the inner catch), stop every track of the granted
stream, then enumerate devices and split them into microphones and cameras.
The effect trace records the platform calls in program order. -/
def getDevices (gum : Option (List Nat)) (devices : List MediaDeviceInfo) :
    List DeviceEffect × List DeviceEntry × List DeviceEntry :=
  let stops :=
    match gum with
    | some tracks => tracks.map DeviceEffect.stopTrack
    | none => []
  let trace := (DeviceEffect.getUserMedia true true :: stops)
      ++ [DeviceEffect.enumerateDevices]
  let microphones := (devices.filter (fun d => d.kind == "audioinput")).map
      (deviceEntry "Microphone")
  let cameras := (devices.filter (fun d => d.kind == "videoinput")).map
      (deviceEntry "Camera")
  (trace, microphones, cameras)

/-! ## Recorder session state (src/js/recorder.js module-level variables) -/

/-- MediaRecorder state attribute. -/
inductive RecState
  | inactive
  | recording
deriving DecidableEq, Repr

/-- The slice of a MediaRecorder object the module observes: its state and
its mimeType. -/
structure MediaRecorderState where
  rstate : RecState
  mimeType : String
deriving DecidableEq, Repr

/-- One encoded chunk delivered by the dataavailable event (identified by a
delivery id, carrying its byte size). -/
structure Chunk where
  id : Nat
  size : Nat
deriving DecidableEq, Repr

/-- The module-level mutable state of recorder.js (lines 5-11), together with
the compositor module state it drives. -/
structure RecorderState where
  mediaRecorder : Option MediaRecorderState
  recordedChunks : List Chunk
  displayStream : Option Nat
  micStream : Option Nat
  cameraStream : Option Nat
  audioContext : Option Nat
  startTime : Option Nat
  comp : CompositorState
deriving DecidableEq, Repr

/-- The state right after module load: every reference null, no chunks. -/
def recorderInit : RecorderState :=
  { mediaRecorder := none, recordedChunks := [], displayStream := none,
    micStream := none, cameraStream := none, audioContext := none,
    startTime := none, comp := compositorInit }

/-- CaptureOptions as destructured at recorder.js lines 87-91. -/
structure CaptureOptions where
  micDeviceId : Option String
  cameraDeviceId : Option String
  cameraEnabled : Bool
deriving DecidableEq, Repr

/-- Platform-call outcomes for one startRecording invocation.  Each Except
field is the result of the corresponding asynchronous platform call: ok
carries the acquired object id, error carries the rejection code that the
await re-raises. -/
structure StartEnv where
  displayOutcome : Except Nat (Nat × Bool)
  micOutcome : Except Nat Nat
  cameraOutcome : Except Nat Nat
  displayVideoW : Nat
  displayVideoH : Nat
  compositeOut : Nat
  audioCtxOutcome : Except Nat Nat
  recorderCtorOutcome : Except Nat Unit
  recorderStartOutcome : Except Nat Unit
  isTypeSupported : String → Bool
  now : Nat

/-- The value startRecording resolves with: which source feeds the video
track of the final stream, whether a mixed audio track is present, and the
chosen mimeType. -/
structure StartResult where
  videoSource : Nat
  hasAudio : Bool
  mimeType : String
deriving DecidableEq, Repr

/-- Effects of recorder.js on platform capture objects, in program order. -/
inductive REffect
  | attemptDisplay
  | gotDisplay (sid : Nat)
  | attemptMic
  | gotMic (sid : Nat)
  | attemptCamera
  | gotCamera (sid : Nat)
  | compositeStarted
  | audioContextCreated (aid : Nat)
  | recorderCreated
  | recorderStarted
  | stopStream (sid : Nat)
  | stopComposite
  | audioContextClosed (aid : Nat)
  | recorderStopped
deriving DecidableEq, Repr

/-- Stopping every track of an optionally-held stream. -/
def optStop : Option Nat → List REffect
  | some s => [REffect.stopStream s]
  | none => []

/-- The platform calls made by cleanup (recorder.js lines 235-261), in
program order: stop compositing, stop the tracks of each held stream, close
the audio context. -/
def cleanupEffects (st : RecorderState) : List REffect :=
  [REffect.stopComposite]
    ++ optStop st.displayStream
    ++ optStop st.micStream
    ++ optStop st.cameraStream
    ++ (match st.audioContext with
        | some a => [REffect.audioContextClosed a]
        | none => [])

/-- cleanup (recorder.js lines 235-261): stop compositing, release every
held stream, close the audio context, null out the recorder, the chunk list
and the start timestamp. -/
def cleanup (st : RecorderState) : RecorderState :=
  { mediaRecorder := none, recordedChunks := [], displayStream := none,
    micStream := none, cameraStream := none, audioContext := none,
    startTime := none, comp := stopCompositing st.comp }

/-! ### startRecording (recorder.js lines 86-200), decomposed by step -/

/-- Step 2 (recorder.js lines 112-127): when micDeviceId is set, attempt the
microphone; success stores the stream and adds it to the audio list, failure
is caught, logged and ignored.  Returns the new state, extended trace and
whether a microphone audio stream was collected. -/
def micStage (st : RecorderState) (tr : List REffect) (opts : CaptureOptions)
    (env : StartEnv) : RecorderState × List REffect × Bool :=
  match opts.micDeviceId with
  | none => (st, tr, false)
  | some _ =>
    match env.micOutcome with
    | Except.ok msid =>
        ({ st with micStream := some msid },
         tr ++ [REffect.attemptMic, REffect.gotMic msid], true)
    | Except.error _ => (st, tr ++ [REffect.attemptMic], false)

/-- Step 3 (recorder.js lines 129-142): when cameraEnabled and a device id is
set, attempt the camera; success stores the stream, failure is caught and
ignored. -/
def cameraStage (st : RecorderState) (tr : List REffect)
    (opts : CaptureOptions) (env : StartEnv) :
    RecorderState × List REffect :=
  if opts.cameraEnabled then
    match opts.cameraDeviceId with
    | some _ =>
      match env.cameraOutcome with
      | Except.ok csid =>
          ({ st with cameraStream := some csid },
           tr ++ [REffect.attemptCamera, REffect.gotCamera csid])
      | Except.error _ => (st, tr ++ [REffect.attemptCamera])
    | none => (st, tr)
  else (st, tr)

/-- Step 4 (recorder.js lines 144-151): if the module-level cameraStream is
set, composite display and camera and use the compositor output as the video
source; otherwise use the display stream.  Returns the id of the stream the
video track is taken from. -/
def videoStage (st : RecorderState) (tr : List REffect) (dsid : Nat)
    (env : StartEnv) : RecorderState × List REffect × Nat :=
  match st.cameraStream with
  | some csid =>
      ({ st with comp := startCompositing st.comp dsid (some csid)
                   env.displayVideoW env.displayVideoH env.compositeOut },
       tr ++ [REffect.compositeStarted], env.compositeOut)
  | none => (st, tr, dsid)

/-- Step 5 (recorder.js lines 153-163 and combineAudioTracks, lines 71-83):
when at least one acquired stream carries audio, create the AudioContext and
mix; AudioContext construction can throw, which propagates to the catch. -/
def audioStage (st : RecorderState) (tr : List REffect) (anyAudio : Bool)
    (env : StartEnv) :
    Except Nat (RecorderState × List REffect × Bool) :=
  if anyAudio then
    match env.audioCtxOutcome with
    | Except.error e => Except.error e
    | Except.ok aid =>
        Except.ok ({ st with audioContext := some aid },
          tr ++ [REffect.audioContextCreated aid], true)
  else Except.ok (st, tr, false)

/-- Step 6 (recorder.js lines 165-194): reset the chunk list, probe the mime
type, construct the MediaRecorder, register the dataavailable and display
track onended handlers, start the recorder and record the start timestamp;
constructor or start failure propagates to the catch. -/
def recordStage (st : RecorderState) (tr : List REffect) (videoSrc : Nat)
    (anyAudio : Bool) (env : StartEnv) :
    Except Nat StartResult × RecorderState × List REffect :=
  let mt := getSupportedMimeType env.isTypeSupported
  let st1 := { st with recordedChunks := [] }
  match env.recorderCtorOutcome with
  | Except.error e => (Except.error e, st1, tr)
  | Except.ok _ =>
    let st2 := { st1 with mediaRecorder := some ⟨RecState.inactive, mt⟩ }
    match env.recorderStartOutcome with
    | Except.error e => (Except.error e, st2, tr ++ [REffect.recorderCreated])
    | Except.ok _ =>
        (Except.ok ⟨videoSrc, anyAudio, mt⟩,
         { st2 with mediaRecorder := some ⟨RecState.recording, mt⟩,
                    startTime := some env.now },
         tr ++ [REffect.recorderCreated, REffect.recorderStarted])

/-- The try block of startRecording (recorder.js lines 93-194): display
acquisition is fatal on failure; microphone and camera degrade gracefully;
then compositing, audio mixing and encoder setup in program order. -/
def tryStart (st : RecorderState) (opts : CaptureOptions) (env : StartEnv) :
    Except Nat StartResult × RecorderState × List REffect :=
  match env.displayOutcome with
  | Except.error e => (Except.error e, st, [REffect.attemptDisplay])
  | Except.ok (dsid, hasAudio) =>
    let m := micStage { st with displayStream := some dsid }
        [REffect.attemptDisplay, REffect.gotDisplay dsid] opts env
    let c := cameraStage m.1 m.2.1 opts env
    let v := videoStage c.1 c.2 dsid env
    match audioStage v.1 v.2.1 (hasAudio || m.2.2) env with
    | Except.error e => (Except.error e, v.1, v.2.1)
    | Except.ok a => recordStage a.1 a.2.1 v.2.2 a.2.2 env

/-- startRecording (recorder.js lines 86-200): the try block, with the catch
running cleanup and re-raising the error (lines 195-199). -/
def startRecording (st : RecorderState) (opts : CaptureOptions)
    (env : StartEnv) : Except Nat StartResult × RecorderState × List REffect :=
  match tryStart st opts env with
  | (Except.ok r, s1, t1) => (Except.ok r, s1, t1)
  | (Except.error e, s1, t1) =>
      (Except.error e, cleanup s1, t1 ++ cleanupEffects s1)

/-! ### stopRecording, auto-stop and chunk delivery -/

/-- The error stopRecording rejects with when no session is active
(recorder.js line 206: the "No active recording" rejection). -/
inductive StopError
  | noActiveSession
deriving DecidableEq, Repr

/-- The value stopRecording resolves with. -/
structure Artifact where
  blob : List Chunk
  duration : Nat
  mimeType : String
deriving DecidableEq, Repr

/-- Math.round(ms / 1000) for a non-negative millisecond count
(recorder.js line 210). -/
def roundSeconds (ms : Nat) : Nat := (2 * ms + 1000) / 2000

/-- True when no session is in progress: no MediaRecorder, or one whose
state is inactive (the recorder.js line 205 test). -/
def isIdle (st : RecorderState) : Bool :=
  match st.mediaRecorder with
  | none => true
  | some mr => mr.rstate = RecState.inactive

/-- stopRecording (recorder.js lines 203-232): reject with NoActiveSession
when idle, mutating nothing; otherwise compute the duration from the start
timestamp (a null timestamp coerces to 0 in the JS subtraction), stop the
recorder, build the blob as the concatenation of the recorded chunks in
delivery order, run cleanup and resolve with the artifact. -/
def stopRecording (st : RecorderState) (now : Nat) :
    Except StopError Artifact × RecorderState × List REffect :=
  match st.mediaRecorder with
  | none => (Except.error StopError.noActiveSession, st, [])
  | some mr =>
    if mr.rstate = RecState.inactive then
      (Except.error StopError.noActiveSession, st, [])
    else
      let duration := roundSeconds (now - st.startTime.getD 0)
      (Except.ok ⟨st.recordedChunks, duration, mr.mimeType⟩,
       cleanup st, [REffect.recorderStopped] ++ cleanupEffects st)

/-- The display-track onended observer registered at recorder.js lines
181-185: invoke stopRecording only when a recorder exists and is not
inactive. -/
def onDisplayEnded (st : RecorderState) (now : Nat) :
    RecorderState × List REffect :=
  match st.mediaRecorder with
  | some mr =>
      if mr.rstate = RecState.inactive then (st, [])
      else ((stopRecording st now).2.1, (stopRecording st now).2.2)
  | none => (st, [])

/-- The dataavailable handler (recorder.js lines 174-178): append the chunk
to the session chunk sequence only when its size is strictly positive. -/
def deliverChunk (st : RecorderState) (c : Chunk) : RecorderState :=
  if 0 < c.size then { st with recordedChunks := st.recordedChunks ++ [c] }
  else st

/-- A sequence of dataavailable deliveries in delivery order. -/
def deliverChunks (st : RecorderState) (cs : List Chunk) : RecorderState :=
  cs.foldl deliverChunk st

/-- Generic ok-test on an Except result. -/
def isOkE {ε α : Type} : Except ε α → Bool
  | Except.ok _ => true
  | Except.error _ => false

/-- The duration of a stop result, 0 on error. -/
def durationOf : Except StopError Artifact → Nat
  | Except.ok a => a.duration
  | Except.error _ => 0

/-- The blob of a stop result, empty on error. -/
def blobOf : Except StopError Artifact → List Chunk
  | Except.ok a => a.blob
  | Except.error _ => []

/-! ### Concrete fixtures used by counterexamples and witnesses -/

/-- A state with a recording session in progress (session on display
stream 1, started at time 0). -/
def activeState : RecorderState :=
  { mediaRecorder := some ⟨RecState.recording, "video/webm"⟩,
    recordedChunks := [], displayStream := some 1, micStream := none,
    cameraStream := none, audioContext := none, startTime := some 0,
    comp := compositorInit }

/-- Options with no microphone and no camera. -/
def plainOpts : CaptureOptions :=
  { micDeviceId := none, cameraDeviceId := none, cameraEnabled := false }

/-- An environment in which every platform call of a re-entrant start
succeeds: display stream 2 with system audio, platform supporting every
mime type. -/
def reentrantEnv : StartEnv :=
  { displayOutcome := Except.ok (2, true), micOutcome := Except.error 0,
    cameraOutcome := Except.error 0, displayVideoW := 1280,
    displayVideoH := 720, compositeOut := 99,
    audioCtxOutcome := Except.ok 7, recorderCtorOutcome := Except.ok (),
    recorderStartOutcome := Except.ok (),
    isTypeSupported := fun _ => true, now := 5000 }

/-- An environment in which display acquisition is refused with code 7. -/
def displayDeniedEnv : StartEnv :=
  { displayOutcome := Except.error 7, micOutcome := Except.error 0,
    cameraOutcome := Except.error 0, displayVideoW := 0,
    displayVideoH := 0, compositeOut := 0,
    audioCtxOutcome := Except.error 0, recorderCtorOutcome := Except.ok (),
    recorderStartOutcome := Except.ok (),
    isTypeSupported := fun _ => true, now := 0 }

/-! ## Claims about the compositor, mime probing and device listing -/

/-- Helper: the last element of a cons followed by an appended singleton. -/
theorem list_getLast?_cons_concat {α : Type} (a e : α) (l : List α) :
    (a :: (l ++ [e])).getLast? = some e := by
  rw [← List.cons_append, List.getLast?_append_cons]
  rfl

/-- C5: with a primary source of 1280x720 (canvas sized by canvasDims) and a
secondary source of 320x240, sizeRatio 0.2 and position bottom-left, the
overlay is 256x192 at x = 20 (margin from the left edge) and
y = 720 - 192 - 20 = 508 (margin from the bottom edge). -/
theorem overlay_bottom_left_geometry :
    cameraOverlayRect (canvasDims 1280 720).1 (canvasDims 1280 720).2
      320 240 "bottom-left" cameraSizeRatio = ⟨20, 508, 256, 192⟩ := by
  simp only [cameraOverlayRect, canvasDims]
  rw [if_neg (by decide), if_neg (by decide), if_neg (by decide),
    OverlayRect.mk.injEq]
  simp only [jsRound, cameraSizeRatio, cameraMargin]
  norm_num

/-- C6: stopCompositing is idempotent: a second call yields the same state as
one call, the resulting state has no render-loop callback scheduled and no
video bindings or output source reference, and calling it when compositing
was never started (the fresh init state) is a no-op. -/
theorem stopCompositing_idempotent :
    ∀ s : CompositorState,
      stopCompositing (stopCompositing s) = stopCompositing s ∧
      (stopCompositing s).animationId = none ∧
      (stopCompositing s).displayVideo = none ∧
      (stopCompositing s).cameraVideo = none ∧
      (stopCompositing s).outputStream = none ∧
      stopCompositing compositorInit = compositorInit := by
  intro s
  exact ⟨rfl, rfl, rfl, rfl, rfl, rfl⟩

/-- C7: getSupportedMimeType returns the first entry of the fixed preference
list that the platform reports as supported, and the bare container string
"video/webm" when the platform supports none of the listed types. -/
theorem mimeType_first_supported (supported : String → Bool) :
    getSupportedMimeType supported
        = (mimeTypeList.find? supported).getD "video/webm" ∧
      ((∀ t ∈ mimeTypeList, supported t = false) →
        getSupportedMimeType supported = "video/webm") := by
  have general : ∀ l : List String,
      supportedScan supported l = (l.find? supported).getD "video/webm" := by
    intro l
    induction l with
    | nil => rfl
    | cons t rest ih =>
      by_cases h : supported t
      · simp [supportedScan, List.find?, h]
      · simp only [Bool.not_eq_true] at h
        simp [supportedScan, List.find?, h, ih]
  refine ⟨general mimeTypeList, fun hall => ?_⟩
  rw [getSupportedMimeType, general mimeTypeList, List.find?_eq_none.mpr]
  · rfl
  · intro t ht
    simp [hall t ht]

/-- C7 witness: with a platform that supports nothing, the bare container
string is returned. -/
theorem mimeType_first_supported_witness :
    getSupportedMimeType (fun _ => false) = "video/webm" :=
  (mimeType_first_supported (fun _ => false)).2 (by decide)

/-- C8 counterexample: a primary source reporting zero width but nonzero
height 720 gives a 1920x720 frame buffer, not the claimed 1920x1080. -/
theorem canvasDims_zero_counterexample :
    ((0 : Nat) = 0 ∨ (720 : Nat) = 0) ∧ canvasDims 0 720 ≠ (1920, 1080) := by
  decide

/-- C8 amended: each frame-buffer dimension falls back independently: a zero
reported width becomes 1920 and a zero reported height becomes 1080 (so the
buffer is 1920x1080 exactly when both are zero), any non-zero reported
dimension is kept, and the buffer is never zero-sized. -/
theorem canvasDims_independent_fallback (w h : Nat) :
    canvasDims 0 0 = (1920, 1080) ∧
      (w ≠ 0 → h ≠ 0 → canvasDims w h = (w, h)) ∧
      (w = 0 → (canvasDims w h).1 = 1920) ∧
      (h = 0 → (canvasDims w h).2 = 1080) ∧
      0 < (canvasDims w h).1 ∧ 0 < (canvasDims w h).2 := by
  unfold canvasDims
  refine ⟨rfl, fun hw hh => ?_, fun hw => ?_, fun hh => ?_, ?_, ?_⟩
  · simp [hw, hh]
  · simp [hw]
  · simp [hh]
  · dsimp only
    split <;> omega
  · dsimp only
    split <;> omega

/-- C8 amended witness: concrete evaluations of the amended claim. -/
theorem canvasDims_independent_fallback_witness :
    canvasDims 1280 720 = (1280, 720) ∧ (canvasDims 1280 0).2 = 1080 :=
  ⟨(canvasDims_independent_fallback 1280 720).2.1 (by decide) (by decide),
   (canvasDims_independent_fallback 1280 0).2.2.2.1 rfl⟩

/-- C10: every call to getDevices first performs the combined audio+video
getUserMedia probe, stops every track of the granted temporary stream before
the enumerateDevices call (which is the last platform call), and the
enumeration happens regardless of whether the probe failed. -/
theorem getDevices_probe_then_enumerate (gum : Option (List Nat))
    (devices : List MediaDeviceInfo) :
    ((getDevices gum devices).1).head? = some (DeviceEffect.getUserMedia true true) ∧
      ((getDevices gum devices).1).getLast? = some DeviceEffect.enumerateDevices ∧
      (∀ t ∈ gum.getD [], DeviceEffect.stopTrack t ∈ ((getDevices gum devices).1).dropLast) := by
  refine ⟨rfl, ?_, ?_⟩
  · exact list_getLast?_cons_concat _ _ _
  · intro t ht
    cases gum with
    | none => simp at ht
    | some tracks =>
      simp only [Option.getD_some] at ht
      show DeviceEffect.stopTrack t ∈
        ((DeviceEffect.getUserMedia true true ::
            tracks.map DeviceEffect.stopTrack)
          ++ [DeviceEffect.enumerateDevices]).dropLast
      rw [List.dropLast_concat]
      exact List.mem_cons_of_mem _ (List.mem_map_of_mem _ ht)

/-- C10 witness: with a granted probe stream holding tracks 3 and 4, track 3
is stopped before the final enumeration. -/
theorem getDevices_probe_then_enumerate_witness :
    DeviceEffect.stopTrack 3 ∈ ((getDevices (some [3, 4]) []).1).dropLast :=
  (getDevices_probe_then_enumerate (some [3, 4]) []).2.2 3 (by decide)

/-! ## Stage lemmas for startRecording -/

/-- Every element of optStop o is a stopStream effect. -/
theorem optStop_shape (o : Option Nat) :
    ∀ e ∈ optStop o, ∃ s, e = REffect.stopStream s := by
  cases o <;> simp [optStop]

/-- The stopStream effect for a held stream is an optStop element. -/
theorem optStop_mem (o : Option Nat) (sid : Nat) (h : o = some sid) :
    REffect.stopStream sid ∈ optStop o := by
  subst h; simp [optStop]

/-- cleanup always stops the compositor. -/
theorem cleanupEffects_stopComposite (st : RecorderState) :
    REffect.stopComposite ∈ cleanupEffects st := by
  simp [cleanupEffects]

/-- cleanup stops the tracks of a held display stream. -/
theorem cleanupEffects_display (st : RecorderState) (sid : Nat)
    (h : st.displayStream = some sid) :
    REffect.stopStream sid ∈ cleanupEffects st := by
  simp [cleanupEffects, optStop, h]

/-- cleanup stops the tracks of a held microphone stream. -/
theorem cleanupEffects_mic (st : RecorderState) (sid : Nat)
    (h : st.micStream = some sid) :
    REffect.stopStream sid ∈ cleanupEffects st := by
  simp [cleanupEffects, optStop, h]

/-- cleanup stops the tracks of a held camera stream. -/
theorem cleanupEffects_camera (st : RecorderState) (sid : Nat)
    (h : st.cameraStream = some sid) :
    REffect.stopStream sid ∈ cleanupEffects st := by
  simp [cleanupEffects, optStop, h]

/-- cleanup closes a held audio context. -/
theorem cleanupEffects_audio (st : RecorderState) (aid : Nat)
    (h : st.audioContext = some aid) :
    REffect.audioContextClosed aid ∈ cleanupEffects st := by
  simp [cleanupEffects, optStop, h]

/-- cleanup emits only release effects, never acquisition effects. -/
theorem cleanupEffects_shape (st : RecorderState) :
    ∀ e ∈ cleanupEffects st,
      e = REffect.stopComposite ∨ (∃ s, e = REffect.stopStream s) ∨
        ∃ a, e = REffect.audioContextClosed a := by
  intro e he
  simp only [cleanupEffects, List.mem_append, List.mem_cons,
    List.not_mem_nil, or_false] at he
  rcases he with (((he | he) | he) | he) | he
  · exact Or.inl he
  · exact Or.inr (Or.inl (optStop_shape _ e he))
  · exact Or.inr (Or.inl (optStop_shape _ e he))
  · exact Or.inr (Or.inl (optStop_shape _ e he))
  · rcases hac : st.audioContext with _ | a <;> rw [hac] at he
    · simp at he
    · simp at he
      exact Or.inr (Or.inr ⟨a, he⟩)

/-- micStage touches only micStream, appends only its own effects, and emits
gotMic sid exactly when it stored the stream sid. -/
theorem micStage_spec (st : RecorderState) (tr : List REffect)
    (opts : CaptureOptions) (env : StartEnv) (s' : RecorderState)
    (t' : List REffect) (b : Bool)
    (h : micStage st tr opts env = (s', t', b)) :
    s'.displayStream = st.displayStream ∧ s'.cameraStream = st.cameraStream ∧
    s'.audioContext = st.audioContext ∧ s'.comp = st.comp ∧
    s'.mediaRecorder = st.mediaRecorder ∧ s'.startTime = st.startTime ∧
    s'.recordedChunks = st.recordedChunks ∧
    (∃ d, t' = tr ++ d) ∧
    (∀ e, e ∈ t' → e ∈ tr ∨ e = REffect.attemptMic ∨
      ∃ sid, e = REffect.gotMic sid ∧ s'.micStream = some sid) := by
  unfold micStage at h
  split at h
  · simp only [Prod.mk.injEq] at h
    obtain ⟨rfl, rfl, rfl⟩ := h
    exact ⟨rfl, rfl, rfl, rfl, rfl, rfl, rfl, ⟨[], by simp⟩,
      fun e he => Or.inl he⟩
  · split at h
    · simp only [Prod.mk.injEq] at h
      obtain ⟨rfl, rfl, rfl⟩ := h
      refine ⟨rfl, rfl, rfl, rfl, rfl, rfl, rfl, ⟨_, rfl⟩, ?_⟩
      intro e he
      rcases List.mem_append.mp he with h1 | h2
      · exact Or.inl h1
      · simp only [List.mem_cons, List.not_mem_nil, or_false] at h2
        rcases h2 with rfl | rfl
        · exact Or.inr (Or.inl rfl)
        · exact Or.inr (Or.inr ⟨_, rfl, rfl⟩)
    · simp only [Prod.mk.injEq] at h
      obtain ⟨rfl, rfl, rfl⟩ := h
      refine ⟨rfl, rfl, rfl, rfl, rfl, rfl, rfl, ⟨_, rfl⟩, ?_⟩
      intro e he
      rcases List.mem_append.mp he with h1 | h2
      · exact Or.inl h1
      · simp only [List.mem_cons, List.not_mem_nil, or_false] at h2
        exact Or.inr (Or.inl h2)

/-- cameraStage touches only cameraStream, appends only its own effects, and
emits gotCamera sid exactly when it stored the stream sid. -/
theorem cameraStage_spec (st : RecorderState) (tr : List REffect)
    (opts : CaptureOptions) (env : StartEnv) (s' : RecorderState)
    (t' : List REffect)
    (h : cameraStage st tr opts env = (s', t')) :
    s'.displayStream = st.displayStream ∧ s'.micStream = st.micStream ∧
    s'.audioContext = st.audioContext ∧ s'.comp = st.comp ∧
    s'.mediaRecorder = st.mediaRecorder ∧ s'.startTime = st.startTime ∧
    s'.recordedChunks = st.recordedChunks ∧
    (∃ d, t' = tr ++ d) ∧
    (∀ e, e ∈ t' → e ∈ tr ∨ e = REffect.attemptCamera ∨
      ∃ sid, e = REffect.gotCamera sid ∧ s'.cameraStream = some sid) := by
  unfold cameraStage at h
  split at h
  · split at h
    · split at h
      · simp only [Prod.mk.injEq] at h
        obtain ⟨rfl, rfl⟩ := h
        refine ⟨rfl, rfl, rfl, rfl, rfl, rfl, rfl, ⟨_, rfl⟩, ?_⟩
        intro e he
        rcases List.mem_append.mp he with h1 | h2
        · exact Or.inl h1
        · simp only [List.mem_cons, List.not_mem_nil, or_false] at h2
          rcases h2 with rfl | rfl
          · exact Or.inr (Or.inl rfl)
          · exact Or.inr (Or.inr ⟨_, rfl, rfl⟩)
      · simp only [Prod.mk.injEq] at h
        obtain ⟨rfl, rfl⟩ := h
        refine ⟨rfl, rfl, rfl, rfl, rfl, rfl, rfl, ⟨_, rfl⟩, ?_⟩
        intro e he
        rcases List.mem_append.mp he with h1 | h2
        · exact Or.inl h1
        · simp only [List.mem_cons, List.not_mem_nil, or_false] at h2
          exact Or.inr (Or.inl h2)
    · simp only [Prod.mk.injEq] at h
      obtain ⟨rfl, rfl⟩ := h
      exact ⟨rfl, rfl, rfl, rfl, rfl, rfl, rfl, ⟨[], by simp⟩,
        fun e he => Or.inl he⟩
  · simp only [Prod.mk.injEq] at h
    obtain ⟨rfl, rfl⟩ := h
    exact ⟨rfl, rfl, rfl, rfl, rfl, rfl, rfl, ⟨[], by simp⟩,
      fun e he => Or.inl he⟩

/-- videoStage touches only the compositor state and appends at most the
compositeStarted effect. -/
theorem videoStage_spec (st : RecorderState) (tr : List REffect) (dsid : Nat)
    (env : StartEnv) (s' : RecorderState) (t' : List REffect) (v : Nat)
    (h : videoStage st tr dsid env = (s', t', v)) :
    s'.displayStream = st.displayStream ∧ s'.micStream = st.micStream ∧
    s'.cameraStream = st.cameraStream ∧ s'.audioContext = st.audioContext ∧
    s'.mediaRecorder = st.mediaRecorder ∧ s'.startTime = st.startTime ∧
    s'.recordedChunks = st.recordedChunks ∧
    (∃ d, t' = tr ++ d) ∧
    (∀ e, e ∈ t' → e ∈ tr ∨ e = REffect.compositeStarted) := by
  unfold videoStage at h
  split at h
  · simp only [Prod.mk.injEq] at h
    obtain ⟨rfl, rfl, rfl⟩ := h
    refine ⟨rfl, rfl, rfl, rfl, rfl, rfl, rfl, ⟨_, rfl⟩, ?_⟩
    intro e he
    rcases List.mem_append.mp he with h1 | h2
    · exact Or.inl h1
    · simp only [List.mem_cons, List.not_mem_nil, or_false] at h2
      exact Or.inr h2
  · simp only [Prod.mk.injEq] at h
    obtain ⟨rfl, rfl, rfl⟩ := h
    exact ⟨rfl, rfl, rfl, rfl, rfl, rfl, rfl, ⟨[], by simp⟩,
      fun e he => Or.inl he⟩

/-- A successful audioStage touches only audioContext and emits
audioContextCreated aid exactly when it stored the context aid. -/
theorem audioStage_spec (st : RecorderState) (tr : List REffect)
    (anyAudio : Bool) (env : StartEnv) (s' : RecorderState)
    (t' : List REffect) (b : Bool)
    (h : audioStage st tr anyAudio env = Except.ok (s', t', b)) :
    s'.displayStream = st.displayStream ∧ s'.micStream = st.micStream ∧
    s'.cameraStream = st.cameraStream ∧ s'.comp = st.comp ∧
    s'.mediaRecorder = st.mediaRecorder ∧ s'.startTime = st.startTime ∧
    s'.recordedChunks = st.recordedChunks ∧
    (∃ d, t' = tr ++ d) ∧
    (∀ e, e ∈ t' → e ∈ tr ∨
      ∃ aid, e = REffect.audioContextCreated aid ∧
        s'.audioContext = some aid) := by
  unfold audioStage at h
  split at h
  · split at h
    · exact absurd h (by simp)
    · simp only [Except.ok.injEq, Prod.mk.injEq] at h
      obtain ⟨rfl, rfl, rfl⟩ := h
      refine ⟨rfl, rfl, rfl, rfl, rfl, rfl, rfl, ⟨_, rfl⟩, ?_⟩
      intro e he
      rcases List.mem_append.mp he with h1 | h2
      · exact Or.inl h1
      · simp only [List.mem_cons, List.not_mem_nil, or_false] at h2
        exact Or.inr ⟨_, h2, rfl⟩
  · simp only [Except.ok.injEq, Prod.mk.injEq] at h
    obtain ⟨rfl, rfl, rfl⟩ := h
    exact ⟨rfl, rfl, rfl, rfl, rfl, rfl, rfl, ⟨[], by simp⟩,
      fun e he => Or.inl he⟩

/-- recordStage leaves every acquired-stream field and the compositor alone,
appends only encoder-setup effects, and on success stores a recording
MediaRecorder with the probed mimeType plus the start timestamp. -/
theorem recordStage_spec (st : RecorderState) (tr : List REffect)
    (videoSrc : Nat) (anyAudio : Bool) (env : StartEnv)
    (r : Except Nat StartResult) (s' : RecorderState) (t' : List REffect)
    (h : recordStage st tr videoSrc anyAudio env = (r, s', t')) :
    s'.displayStream = st.displayStream ∧ s'.micStream = st.micStream ∧
    s'.cameraStream = st.cameraStream ∧ s'.audioContext = st.audioContext ∧
    s'.comp = st.comp ∧
    (∃ d, t' = tr ++ d) ∧
    (∀ e, e ∈ t' → e ∈ tr ∨ e = REffect.recorderCreated ∨
      e = REffect.recorderStarted) ∧
    (∀ res, r = Except.ok res →
      s'.mediaRecorder =
          some ⟨RecState.recording, getSupportedMimeType env.isTypeSupported⟩ ∧
        s'.startTime = some env.now ∧ s'.recordedChunks = [] ∧
        res.mimeType = getSupportedMimeType env.isTypeSupported) := by
  unfold recordStage at h
  split at h
  · simp only [Prod.mk.injEq] at h
    obtain ⟨rfl, rfl, rfl⟩ := h
    refine ⟨rfl, rfl, rfl, rfl, rfl, ⟨[], by simp⟩,
      fun e he => Or.inl he, ?_⟩
    intro res hres
    exact absurd hres (by simp)
  · split at h
    · simp only [Prod.mk.injEq] at h
      obtain ⟨rfl, rfl, rfl⟩ := h
      refine ⟨rfl, rfl, rfl, rfl, rfl, ⟨_, rfl⟩, ?_, ?_⟩
      · intro e he
        rcases List.mem_append.mp he with h1 | h2
        · exact Or.inl h1
        · simp only [List.mem_cons, List.not_mem_nil, or_false] at h2
          exact Or.inr (Or.inl h2)
      · intro res hres
        exact absurd hres (by simp)
    · simp only [Prod.mk.injEq] at h
      obtain ⟨rfl, rfl, rfl⟩ := h
      refine ⟨rfl, rfl, rfl, rfl, rfl, ⟨_, rfl⟩, ?_, ?_⟩
      · intro e he
        rcases List.mem_append.mp he with h1 | h2
        · exact Or.inl h1
        · simp only [List.mem_cons, List.not_mem_nil, or_false] at h2
          rcases h2 with rfl | rfl
          · exact Or.inr (Or.inl rfl)
          · exact Or.inr (Or.inr rfl)
      · intro res hres
        simp only [Except.ok.injEq] at hres
        subst hres
        exact ⟨rfl, rfl, rfl, rfl⟩

/-- Master characterization of the try block: the trace always starts with
the display acquisition attempt; on a fatal error the state at the failure
point holds every source whose acquisition effect is in the trace; on
success the state holds a recording MediaRecorder with the probed mimeType
and the start timestamp. -/
theorem tryStart_spec (st : RecorderState) (opts : CaptureOptions)
    (env : StartEnv) (r : Except Nat StartResult) (s' : RecorderState)
    (t' : List REffect) (h : tryStart st opts env = (r, s', t')) :
    (∃ rest, t' = REffect.attemptDisplay :: rest) ∧
    (∀ e0, r = Except.error e0 →
      (∀ sid, REffect.gotDisplay sid ∈ t' → s'.displayStream = some sid) ∧
      (∀ sid, REffect.gotMic sid ∈ t' → s'.micStream = some sid) ∧
      (∀ sid, REffect.gotCamera sid ∈ t' → s'.cameraStream = some sid) ∧
      (∀ aid, REffect.audioContextCreated aid ∈ t' →
        s'.audioContext = some aid)) ∧
    (∀ res, r = Except.ok res →
      s'.mediaRecorder =
          some ⟨RecState.recording, getSupportedMimeType env.isTypeSupported⟩ ∧
        s'.startTime = some env.now ∧ s'.recordedChunks = [] ∧
        res.mimeType = getSupportedMimeType env.isTypeSupported) := by
  unfold tryStart at h
  split at h
  · -- display acquisition failed
    simp only [Prod.mk.injEq] at h
    obtain ⟨rfl, rfl, rfl⟩ := h
    refine ⟨⟨[], rfl⟩, ?_, ?_⟩
    · intro e0 _
      refine ⟨?_, ?_, ?_, ?_⟩ <;> intro x hx <;> simp at hx
    · intro res hres
      exact absurd hres (by simp)
  · -- display acquired as (dsid, hasAudio)
    rename_i dsid hasAudio heqd
    rcases hm : micStage { st with displayStream := some dsid }
        [REffect.attemptDisplay, REffect.gotDisplay dsid] opts env
      with ⟨s2, t2, micAudio⟩
    obtain ⟨Mdisp, Mcam, Maud, Mcomp, Mmr, Mst, Mch, ⟨dm, hdm⟩, Mmem⟩ :=
      micStage_spec _ _ _ _ _ _ _ hm
    rw [hm] at h
    dsimp only at h
    rcases hc : cameraStage s2 t2 opts env with ⟨s3, t3⟩
    obtain ⟨Cdisp, Cmic, Caud, Ccomp, Cmr, Cst, Cch, ⟨dc, hdc⟩, Cmem⟩ :=
      cameraStage_spec _ _ _ _ _ _ hc
    rw [hc] at h
    dsimp only at h
    rcases hv : videoStage s3 t3 dsid env with ⟨s4, t4, vsrc⟩
    obtain ⟨Vdisp, Vmic, Vcam, Vaud, Vmr, Vst, Vch, ⟨dv, hdv⟩, Vmem⟩ :=
      videoStage_spec _ _ _ _ _ _ _ hv
    rw [hv] at h
    dsimp only at h
    cases ha : audioStage s4 t4 (hasAudio || micAudio) env with
    | error e1 =>
      rw [ha] at h
      dsimp only at h
      simp only [Prod.mk.injEq] at h
      obtain ⟨rfl, rfl, rfl⟩ := h
      refine ⟨?_, ?_, ?_⟩
      · refine ⟨[REffect.gotDisplay dsid] ++ dm ++ dc ++ dv, ?_⟩
        subst hdv hdc hdm
        simp
      · intro e0 _
        refine ⟨?_, ?_, ?_, ?_⟩
        · intro sid hs
          rcases Vmem _ hs with hs | hs
          · rcases Cmem _ hs with hs | hs | ⟨x, hx, _⟩
            · rcases Mmem _ hs with hs | hs | ⟨x, hx, _⟩
              · simp only [List.mem_cons, List.not_mem_nil, or_false] at hs
                rcases hs with hs | hs
                · simp at hs
                · simp only [REffect.gotDisplay.injEq] at hs
                  subst hs
                  rw [Vdisp, Cdisp, Mdisp]
              · simp at hs
              · simp at hx
            · simp at hs
            · simp at hx
          · simp at hs
        · intro sid hs
          rcases Vmem _ hs with hs | hs
          · rcases Cmem _ hs with hs | hs | ⟨x, hx, _⟩
            · rcases Mmem _ hs with hs | hs | ⟨x, hx, hxf⟩
              · simp at hs
              · simp at hs
              · simp only [REffect.gotMic.injEq] at hx
                subst hx
                rw [Vmic, Cmic]
                exact hxf
            · simp at hs
            · simp at hx
          · simp at hs
        · intro sid hs
          rcases Vmem _ hs with hs | hs
          · rcases Cmem _ hs with hs | hs | ⟨x, hx, hxf⟩
            · rcases Mmem _ hs with hs | hs | ⟨x, hx, _⟩
              · simp at hs
              · simp at hs
              · simp at hx
            · simp at hs
            · simp only [REffect.gotCamera.injEq] at hx
              subst hx
              rw [Vcam]
              exact hxf
          · simp at hs
        · intro aid hs
          rcases Vmem _ hs with hs | hs
          · rcases Cmem _ hs with hs | hs | ⟨x, hx, _⟩
            · rcases Mmem _ hs with hs | hs | ⟨x, hx, _⟩
              · simp at hs
              · simp at hs
              · simp at hx
            · simp at hs
            · simp at hx
          · simp at hs
      · intro res hres
        exact absurd hres (by simp)
    | ok a1 =>
      obtain ⟨s5, t5, anyAudio⟩ := a1
      obtain ⟨Adisp, Amic, Acam, Acomp, Amr, Ast, Ach, ⟨da, hda⟩, Amem⟩ :=
        audioStage_spec _ _ _ _ _ _ _ ha
      rw [ha] at h
      dsimp only at h
      obtain ⟨Rdisp, Rmic, Rcam, Raud, Rcomp, ⟨dr, hdr⟩, Rmem, Rok⟩ :=
        recordStage_spec _ _ _ _ _ _ _ _ h
      refine ⟨?_, ?_, ?_⟩
      · refine ⟨[REffect.gotDisplay dsid] ++ dm ++ dc ++ dv ++ da ++ dr, ?_⟩
        subst hdr hda hdv hdc hdm
        simp
      · intro e0 _
        refine ⟨?_, ?_, ?_, ?_⟩
        · intro sid hs
          rcases Rmem _ hs with hs | hs | hs
          · rcases Amem _ hs with hs | ⟨x, hx, _⟩
            · rcases Vmem _ hs with hs | hs
              · rcases Cmem _ hs with hs | hs | ⟨x, hx, _⟩
                · rcases Mmem _ hs with hs | hs | ⟨x, hx, _⟩
                  · simp only [List.mem_cons, List.not_mem_nil,
                      or_false] at hs
                    rcases hs with hs | hs
                    · simp at hs
                    · simp only [REffect.gotDisplay.injEq] at hs
                      subst hs
                      rw [Rdisp, Adisp, Vdisp, Cdisp, Mdisp]
                  · simp at hs
                  · simp at hx
                · simp at hs
                · simp at hx
              · simp at hs
            · simp at hx
          · simp at hs
          · simp at hs
        · intro sid hs
          rcases Rmem _ hs with hs | hs | hs
          · rcases Amem _ hs with hs | ⟨x, hx, _⟩
            · rcases Vmem _ hs with hs | hs
              · rcases Cmem _ hs with hs | hs | ⟨x, hx, _⟩
                · rcases Mmem _ hs with hs | hs | ⟨x, hx, hxf⟩
                  · simp at hs
                  · simp at hs
                  · simp only [REffect.gotMic.injEq] at hx
                    subst hx
                    rw [Rmic, Amic, Vmic, Cmic]
                    exact hxf
                · simp at hs
                · simp at hx
              · simp at hs
            · simp at hx
          · simp at hs
          · simp at hs
        · intro sid hs
          rcases Rmem _ hs with hs | hs | hs
          · rcases Amem _ hs with hs | ⟨x, hx, _⟩
            · rcases Vmem _ hs with hs | hs
              · rcases Cmem _ hs with hs | hs | ⟨x, hx, hxf⟩
                · rcases Mmem _ hs with hs | hs | ⟨x, hx, _⟩
                  · simp at hs
                  · simp at hs
                  · simp at hx
                · simp at hs
                · simp only [REffect.gotCamera.injEq] at hx
                  subst hx
                  rw [Rcam, Acam, Vcam]
                  exact hxf
              · simp at hs
            · simp at hx
          · simp at hs
          · simp at hs
        · intro aid hs
          rcases Rmem _ hs with hs | hs | hs
          · rcases Amem _ hs with hs | ⟨x, hx, hxf⟩
            · rcases Vmem _ hs with hs | hs
              · rcases Cmem _ hs with hs | hs | ⟨x, hx, _⟩
                · rcases Mmem _ hs with hs | hs | ⟨x, hx, _⟩
                  · simp at hs
                  · simp at hs
                  · simp at hx
                · simp at hs
                · simp at hx
              · simp at hs
            · simp only [REffect.audioContextCreated.injEq] at hx
              subst hx
              rw [Raud]
              exact hxf
          · simp at hs
          · simp at hs
      · intro res hres
        exact Rok res hres

/-- deliverChunks appends exactly the positive-size chunks, in delivery
order, and never touches the recorder or the start timestamp. -/
theorem deliverChunks_spec (cs : List Chunk) (st : RecorderState) :
    (deliverChunks st cs).recordedChunks
        = st.recordedChunks ++ cs.filter (fun c => decide (0 < c.size)) ∧
      (deliverChunks st cs).mediaRecorder = st.mediaRecorder ∧
      (deliverChunks st cs).startTime = st.startTime := by
  induction cs generalizing st with
  | nil => simp [deliverChunks]
  | cons c cs ih =>
    by_cases hc : 0 < c.size
    · have hstep : deliverChunk st c
          = { st with recordedChunks := st.recordedChunks ++ [c] } := by
        unfold deliverChunk
        rw [if_pos hc]
      have hfold : deliverChunks st (c :: cs)
          = deliverChunks { st with recordedChunks := st.recordedChunks ++ [c] } cs := by
        unfold deliverChunks
        rw [List.foldl_cons, hstep]
      rw [hfold]
      obtain ⟨h1, h2, h3⟩ := ih _
      refine ⟨?_, h2, h3⟩
      rw [h1]
      simp [List.filter_cons, hc]
    · have hstep : deliverChunk st c = st := by
        unfold deliverChunk
        rw [if_neg hc]
      have hfold : deliverChunks st (c :: cs) = deliverChunks st cs := by
        unfold deliverChunks
        rw [List.foldl_cons, hstep]
      rw [hfold]
      obtain ⟨h1, h2, h3⟩ := ih st
      refine ⟨?_, h2, h3⟩
      rw [h1]
      simp [List.filter_cons, hc]

/-! ## Claims about the recorder -/

/-- C1 counterexample: with a session already active (a recording
MediaRecorder on display stream 1), a re-entrant startRecording does not
raise: it succeeds, acquires a second display capture source (stream 2),
and never releases the display stream of the first session during the call. -/
theorem startRecording_reentrant_acquires :
    activeState.mediaRecorder = some ⟨RecState.recording, "video/webm"⟩ ∧
      isOkE (startRecording activeState plainOpts reentrantEnv).1 = true ∧
      REffect.gotDisplay 2 ∈ (startRecording activeState plainOpts reentrantEnv).2.2 ∧
      REffect.stopStream 1 ∉ (startRecording activeState plainOpts reentrantEnv).2.2 := by
  decide

/-- C1 amended: startRecording performs no active-session check: whatever the
module state, its first platform action is the display acquisition attempt,
so a re-entrant call while a session is active proceeds to acquire a second
set of devices instead of failing fast. -/
theorem startRecording_no_fail_fast (st : RecorderState)
    (opts : CaptureOptions) (env : StartEnv) :
    ((startRecording st opts env).2.2).head? = some REffect.attemptDisplay := by
  rcases hts : tryStart st opts env with ⟨r, s1, t1⟩
  obtain ⟨⟨rest, hrest⟩, -, -⟩ := tryStart_spec _ _ _ _ _ _ hts
  cases r with
  | ok res =>
    unfold startRecording
    rw [hts]
    dsimp only
    rw [hrest]
    rfl
  | error e =>
    unfold startRecording
    rw [hts]
    dsimp only
    rw [hrest]
    rfl

/-- C3: whenever startRecording fails, every capture source acquired during
that invocation is released (a stopStream effect for its id follows in the
trace), the compositor is stopped and the audio graph is closed, and no
leftover session state survives: every module reference, including the
compositor bindings, is cleared before the error is re-raised. -/
theorem start_failure_releases_all (st : RecorderState)
    (opts : CaptureOptions) (env : StartEnv) (e : Nat)
    (h : (startRecording st opts env).1 = Except.error e) :
    (startRecording st opts env).2.1.displayStream = none ∧
      (startRecording st opts env).2.1.micStream = none ∧
      (startRecording st opts env).2.1.cameraStream = none ∧
      (startRecording st opts env).2.1.audioContext = none ∧
      (startRecording st opts env).2.1.mediaRecorder = none ∧
      (startRecording st opts env).2.1.startTime = none ∧
      (startRecording st opts env).2.1.comp.animationId = none ∧
      (startRecording st opts env).2.1.comp.displayVideo = none ∧
      (startRecording st opts env).2.1.comp.cameraVideo = none ∧
      (startRecording st opts env).2.1.comp.outputStream = none ∧
      REffect.stopComposite ∈ (startRecording st opts env).2.2 ∧
      (∀ sid, REffect.gotDisplay sid ∈ (startRecording st opts env).2.2 →
        REffect.stopStream sid ∈ (startRecording st opts env).2.2) ∧
      (∀ sid, REffect.gotMic sid ∈ (startRecording st opts env).2.2 →
        REffect.stopStream sid ∈ (startRecording st opts env).2.2) ∧
      (∀ sid, REffect.gotCamera sid ∈ (startRecording st opts env).2.2 →
        REffect.stopStream sid ∈ (startRecording st opts env).2.2) ∧
      (∀ aid, REffect.audioContextCreated aid ∈ (startRecording st opts env).2.2 →
        REffect.audioContextClosed aid ∈ (startRecording st opts env).2.2) := by
  rcases hts : tryStart st opts env with ⟨r, s1, t1⟩
  obtain ⟨-, Herr, -⟩ := tryStart_spec _ _ _ _ _ _ hts
  cases r with
  | ok res =>
    exfalso
    unfold startRecording at h
    rw [hts] at h
    simp at h
  | error e1 =>
    obtain ⟨HD, HM, HC, HA⟩ := Herr e1 rfl
    unfold startRecording
    rw [hts]
    dsimp only
    refine ⟨rfl, rfl, rfl, rfl, rfl, rfl, rfl, rfl, rfl, rfl, ?_, ?_, ?_, ?_, ?_⟩
    · exact List.mem_append.mpr (Or.inr (cleanupEffects_stopComposite s1))
    · intro sid hs
      rcases List.mem_append.mp hs with hs | hs
      · exact List.mem_append.mpr
          (Or.inr (cleanupEffects_display s1 sid (HD sid hs)))
      · rcases cleanupEffects_shape s1 _ hs with h1 | ⟨x, h1⟩ | ⟨x, h1⟩ <;>
          simp at h1
    · intro sid hs
      rcases List.mem_append.mp hs with hs | hs
      · exact List.mem_append.mpr
          (Or.inr (cleanupEffects_mic s1 sid (HM sid hs)))
      · rcases cleanupEffects_shape s1 _ hs with h1 | ⟨x, h1⟩ | ⟨x, h1⟩ <;>
          simp at h1
    · intro sid hs
      rcases List.mem_append.mp hs with hs | hs
      · exact List.mem_append.mpr
          (Or.inr (cleanupEffects_camera s1 sid (HC sid hs)))
      · rcases cleanupEffects_shape s1 _ hs with h1 | ⟨x, h1⟩ | ⟨x, h1⟩ <;>
          simp at h1
    · intro aid hs
      rcases List.mem_append.mp hs with hs | hs
      · exact List.mem_append.mpr
          (Or.inr (cleanupEffects_audio s1 aid (HA aid hs)))
      · rcases cleanupEffects_shape s1 _ hs with h1 | ⟨x, h1⟩ | ⟨x, h1⟩ <;>
          simp at h1

/-- C3 witness: a start refused at display acquisition (code 7) leaves no
references held and the trace stops the compositor. -/
theorem start_failure_releases_all_witness :
    (startRecording recorderInit plainOpts displayDeniedEnv).2.1.displayStream = none ∧
      (startRecording recorderInit plainOpts displayDeniedEnv).2.1.mediaRecorder = none ∧
      REffect.stopComposite ∈ (startRecording recorderInit plainOpts displayDeniedEnv).2.2 :=
  ⟨(start_failure_releases_all recorderInit plainOpts displayDeniedEnv 7 rfl).1,
   (start_failure_releases_all recorderInit plainOpts displayDeniedEnv 7 rfl).2.2.2.2.1,
   (start_failure_releases_all recorderInit plainOpts displayDeniedEnv 7 rfl).2.2.2.2.2.2.2.2.2.2.1⟩

/-- C2: for every CaptureOptions, when startRecording from the idle module
state succeeds, an immediate stopRecording at any later time resolves with
an artifact whose duration is non-negative and within one second of the
wall-clock time elapsed between recorder start and the stop call (the code
rounds the millisecond difference to whole seconds, so it is within half a
second). -/
theorem start_stop_duration_within_one_second (opts : CaptureOptions)
    (env : StartEnv) (tstop : Nat)
    (hok : isOkE (startRecording recorderInit opts env).1 = true)
    (hle : env.now ≤ tstop) :
    isOkE (stopRecording (startRecording recorderInit opts env).2.1 tstop).1 = true ∧
      (0 : ℤ) ≤ (durationOf (stopRecording (startRecording recorderInit opts env).2.1 tstop).1 : ℤ) ∧
      (1000 * (durationOf (stopRecording (startRecording recorderInit opts env).2.1 tstop).1 : ℤ)
          - ((tstop : ℤ) - (env.now : ℤ))).natAbs ≤ 1000 := by
  rcases hts : tryStart recorderInit opts env with ⟨r, s1, t1⟩
  obtain ⟨-, -, Hok⟩ := tryStart_spec _ _ _ _ _ _ hts
  cases r with
  | error e =>
    exfalso
    unfold startRecording at hok
    rw [hts] at hok
    simp [isOkE] at hok
  | ok res =>
    obtain ⟨hmr, hst, -, -⟩ := Hok res rfl
    unfold startRecording
    rw [hts]
    dsimp only
    have hstop : stopRecording s1 tstop
        = (Except.ok ⟨s1.recordedChunks,
              roundSeconds (tstop - s1.startTime.getD 0),
              getSupportedMimeType env.isTypeSupported⟩,
           cleanup s1,
           [REffect.recorderStopped] ++ cleanupEffects s1) := by
      unfold stopRecording
      rw [hmr]
      dsimp only
      rw [if_neg (by decide)]
    rw [hstop, hst]
    refine ⟨rfl, ?_⟩
    simp only [Option.getD_some, durationOf, roundSeconds]
    constructor <;> omega

/-- C2 witness: a successful start at time 5000 stopped at time 6400 yields
an ok artifact whose duration (1 second) is within one second of the
1400 ms elapsed. -/
theorem start_stop_duration_within_one_second_witness :
    isOkE (stopRecording (startRecording recorderInit plainOpts reentrantEnv).2.1 6400).1 = true ∧
      (1000 * (durationOf (stopRecording (startRecording recorderInit plainOpts reentrantEnv).2.1 6400).1 : ℤ)
          - ((6400 : ℤ) - ((5000 : Nat) : ℤ))).natAbs ≤ 1000 :=
  ⟨(start_stop_duration_within_one_second plainOpts reentrantEnv 6400
      (by decide) (by decide)).1,
   (start_stop_duration_within_one_second plainOpts reentrantEnv 6400
      (by decide) (by decide)).2.2⟩

/-- C4: stopRecording while idle (no recorder, or an inactive one) fails
with NoActiveSession, mutates nothing and performs no platform call; and
after a first stop has performed teardown, the state is idle, so any
subsequent stopRecording call and the display-track auto-stop observer both
observe the idle state: the second stop fails with NoActiveSession without
mutating, and the observer is a no-op, so only the first caller tears
down. -/
theorem stop_idle_noop_and_race (st : RecorderState) (n1 n2 : Nat) :
    (isIdle st = true →
      stopRecording st n1 = (Except.error StopError.noActiveSession, st, [])) ∧
      (isIdle st = false →
        isOkE (stopRecording st n1).1 = true ∧
          isIdle (stopRecording st n1).2.1 = true ∧
          stopRecording (stopRecording st n1).2.1 n2
            = (Except.error StopError.noActiveSession,
               (stopRecording st n1).2.1, []) ∧
          onDisplayEnded (stopRecording st n1).2.1 n2
            = ((stopRecording st n1).2.1, [])) := by
  cases hmr : st.mediaRecorder with
  | none =>
    constructor
    · intro _
      unfold stopRecording
      rw [hmr]
    · intro hid
      unfold isIdle at hid
      rw [hmr] at hid
      simp at hid
  | some mr =>
    by_cases hs : mr.rstate = RecState.inactive
    · constructor
      · intro _
        unfold stopRecording
        rw [hmr]
        dsimp only
        rw [if_pos hs]
      · intro hid
        unfold isIdle at hid
        rw [hmr] at hid
        simp [hs] at hid
    · constructor
      · intro hid
        exfalso
        unfold isIdle at hid
        rw [hmr] at hid
        simp [hs] at hid
      · intro _
        have hstop : stopRecording st n1
            = (Except.ok ⟨st.recordedChunks,
                  roundSeconds (n1 - st.startTime.getD 0), mr.mimeType⟩,
               cleanup st,
               [REffect.recorderStopped] ++ cleanupEffects st) := by
          unfold stopRecording
          rw [hmr]
          dsimp only
          rw [if_neg hs]
        rw [hstop]
        refine ⟨rfl, rfl, ?_, ?_⟩
        · unfold stopRecording
          rfl
        · unfold onDisplayEnded
          rfl

/-- C4 witness: stopping from the idle initial state fails with
NoActiveSession without mutating, and after stopping an active session the
state observed by a racing second stop is idle and the second stop fails. -/
theorem stop_idle_noop_and_race_witness :
    stopRecording recorderInit 5 = (Except.error StopError.noActiveSession, recorderInit, []) ∧
      isIdle (stopRecording activeState 5).2.1 = true ∧
      stopRecording (stopRecording activeState 5).2.1 9
        = (Except.error StopError.noActiveSession,
           (stopRecording activeState 5).2.1, []) :=
  ⟨(stop_idle_noop_and_race recorderInit 5 5).1 (by decide),
   ((stop_idle_noop_and_race activeState 5 9).2 (by decide)).2.1,
   ((stop_idle_noop_and_race activeState 5 9).2 (by decide)).2.2.1⟩

/-- C9: from an active session with an empty chunk list, after any sequence
of dataavailable deliveries every stored chunk has size strictly greater
than zero (zero-size chunks are discarded), and the artifact blob produced
by stopRecording is the concatenation of exactly the non-empty delivered
chunks in delivery order. -/
theorem chunks_positive_and_blob_filter (st : RecorderState)
    (cs : List Chunk) (n : Nat)
    (h0 : st.recordedChunks = []) (h1 : isIdle st = false) :
    (∀ c ∈ (deliverChunks st cs).recordedChunks, 0 < c.size) ∧
      isOkE (stopRecording (deliverChunks st cs) n).1 = true ∧
      blobOf (stopRecording (deliverChunks st cs) n).1
        = cs.filter (fun c => decide (0 < c.size)) := by
  obtain ⟨hch, hmrpres, -⟩ := deliverChunks_spec cs st
  rw [h0] at hch
  simp only [List.nil_append] at hch
  cases hm : st.mediaRecorder with
  | none =>
    exfalso
    unfold isIdle at h1
    rw [hm] at h1
    simp at h1
  | some mr =>
    have hmr2 : (deliverChunks st cs).mediaRecorder = some mr := by
      rw [hmrpres, hm]
    have hrs : ¬ (mr.rstate = RecState.inactive) := by
      intro hcontra
      unfold isIdle at h1
      rw [hm] at h1
      simp [hcontra] at h1
    have hstop : stopRecording (deliverChunks st cs) n
        = (Except.ok ⟨(deliverChunks st cs).recordedChunks,
              roundSeconds (n - (deliverChunks st cs).startTime.getD 0),
              mr.mimeType⟩,
           cleanup (deliverChunks st cs),
           [REffect.recorderStopped] ++ cleanupEffects (deliverChunks st cs)) := by
      unfold stopRecording
      rw [hmr2]
      dsimp only
      rw [if_neg hrs]
    refine ⟨?_, ?_, ?_⟩
    · intro c hc
      rw [hch] at hc
      exact of_decide_eq_true (List.mem_filter.mp hc).2
    · rw [hstop]
      rfl
    · rw [hstop]
      dsimp only [blobOf]
      exact hch

/-- C9 witness: delivering chunks of sizes 3, 0 and 1 to an active session
stores only the two non-empty chunks, which form the artifact blob. -/
theorem chunks_positive_and_blob_filter_witness :
    isOkE (stopRecording (deliverChunks activeState [⟨1, 3⟩, ⟨2, 0⟩, ⟨3, 1⟩]) 9).1 = true ∧
      blobOf (stopRecording (deliverChunks activeState [⟨1, 3⟩, ⟨2, 0⟩, ⟨3, 1⟩]) 9).1
        = [⟨1, 3⟩, ⟨3, 1⟩] :=
  ⟨(chunks_positive_and_blob_filter activeState [⟨1, 3⟩, ⟨2, 0⟩, ⟨3, 1⟩] 9
      rfl (by decide)).2.1,
   ((chunks_positive_and_blob_filter activeState [⟨1, 3⟩, ⟨2, 0⟩, ⟨3, 1⟩] 9
      rfl (by decide)).2.2).trans (by decide)⟩
